import Mathlib

/-!
# Verification of `soil_temp_lookup.py`

A shallow embedding of the soil-temperature lookup module
(`src/soil_temp_lookup.py`) and proofs of its specified properties.

Modelling conventions:
* Python floats are modelled as `ℚ`, with NaN represented explicitly by the
  inductive `PixelVal` (a sampled pixel is either NaN or a rational value).
* Python exceptions are modelled by `Except PyError`; the distinct Python
  exception classes (`RuntimeError`, `ValueError`, `rasterio.errors.*`) are
  distinct constructors of `PyError`.
* The external collaborators (the filesystem / `rasterio.open`, the
  `WarpedVRT` reprojection wrapper, path normalization
  `Path(path).expanduser().resolve()`, and the optional geopy backend) are
  fields of an `Env` record: the module's own code is embedded exactly, and
  the collaborators stay abstract.
* The process-wide cache dict attached to the `_get_dataset` function object
  is threaded explicitly: every embedded operation takes the cache and
  returns the updated cache, together with a count of `rasterio.open` calls
  performed (and, for the bbox query, a count of windowed reads performed).
* `rasterio`'s window arithmetic (`windows.from_bounds`,
  `Window.round_offsets` (floor), `Window.round_lengths` (ceil),
  `Window.intersection`, which raises `WindowError` when the windows do not
  overlap) is modelled from the library's documented behaviour, for the
  axis-aligned (north-up, b = d = 0) affine transforms that GeoTIFF rasters
  use.
-/

/-- A sampled raster cell value: a Python float, which is either NaN or an
actual number (modelled as a rational). -/
inductive PixelVal : Type where
  | nan : PixelVal
  | val (q : ℚ) : PixelVal
deriving DecidableEq

/-- `np.isnan` on a sampled value. -/
def PixelVal.isNaN : PixelVal → Bool
  | .nan => true
  | .val _ => false

/-- The numeric content of a non-NaN value (`float(value)` in the source);
NaN is mapped to 0 but every use is guarded by an `isNaN` check. -/
def PixelVal.toRat : PixelVal → ℚ
  | .nan => 0
  | .val q => q

/-- `np.isclose(a, b)` with the NumPy defaults `rtol = 1e-05`, `atol = 1e-08`,
`equal_nan = False`: true iff both operands are non-NaN and
`|a - b| <= atol + rtol * |b|`. -/
def npIsClose : PixelVal → PixelVal → Bool
  | .val a, .val b => decide (|a - b| ≤ 1 / 100000000 + (1 / 100000) * |b|)
  | _, _ => false

/-- Python exception classes that the embedded code can raise. -/
inductive PyError : Type where
  | runtimeError (msg : String) : PyError
  | valueError (msg : String) : PyError
  | ioError (msg : String) : PyError
  | windowError (msg : String) : PyError
deriving DecidableEq

/-- A pixel window, `rasterio.windows.Window`: column/row offsets and
width/height, kept as rationals because `windows.from_bounds` produces
fractional values before rounding. -/
structure Win : Type where
  colOff : ℚ
  rowOff : ℚ
  width : ℚ
  height : ℚ
deriving DecidableEq

/-- A 2-D masked array as returned by `ds.read(1, window=w, masked=True)`:
each cell is a value together with its mask bit (`true` = masked / nodata). -/
structure MArr : Type where
  entries : List (List (PixelVal × Bool))
deriving DecidableEq

/-- `data.mask.all()`: every cell of the masked array is masked.
(On an empty array NumPy's `all` is vacuously true, as is `List.all`.) -/
def maskAll (m : MArr) : Bool :=
  m.entries.all (fun row => row.all (fun cell => cell.2))

/-- `data.filled(np.nan).astype(float)`: replace masked cells by NaN and
return a plain 2-D float array. -/
def fillNaN (m : MArr) : List (List PixelVal) :=
  m.entries.map (fun row => row.map (fun cell => if cell.2 then PixelVal.nan else cell.1))

/-- A rasterio dataset handle (`DatasetReader` or `WarpedVRT`): the interface
the lookup code consumes.  `crs` is `none` when the raster has no CRS at all,
and `some e` when it has one, where `e` is the result of `crs.to_epsg()`
(itself an `Option`, since a CRS need not have an EPSG code).  The affine
transform is axis-aligned: `x = a * col + c`, `y = e * row + f`.
`sample lon lat` is the band-1 value of `ds.sample([(lon, lat)])`, and
`readWin w` is the masked band-1 block `ds.read(1, window=w, masked=True)`. -/
structure Raster : Type where
  crs : Option (Option ℤ)
  nodata : Option PixelVal
  left : ℚ
  bottom : ℚ
  right : ℚ
  top : ℚ
  rasterWidth : ℕ
  rasterHeight : ℕ
  a : ℚ
  c : ℚ
  e : ℚ
  f : ℚ
  sample : ℚ → ℚ → PixelVal
  readWin : Win → MArr

/-- The dict `_get_dataset._cache`, mapping normalized path strings to open
dataset handles. -/
def Cache : Type := String → Option Raster

/-- The cache at process start: empty. -/
def emptyCache : Cache := fun _ => none

/-- `_get_dataset._cache[key] = value`: Python dict assignment. -/
def cacheSet (cache : Cache) (key : String) (value : Raster) : Cache :=
  fun k => if k = key then some value else cache k

/-- The external collaborators of the module, kept abstract:
`norm` is `str(Path(path).expanduser().resolve())`; `fsOpen` is
`rasterio.open` on a normalized path (which may raise, e.g. for a missing
file); `warp` is `WarpedVRT(base, crs="EPSG:4326")`; `backend` is the
optional geopy geocoder (`none` models `Nominatim is None`, i.e. geopy not
installed; otherwise it maps an address to `some (lat, lon)` or `none` for
no match). -/
structure Env : Type where
  norm : String → String
  fsOpen : String → Except PyError Raster
  warp : Raster → Raster
  backend : Option (String → Option (ℚ × ℚ))

/-- The error message of `_get_dataset`'s missing-CRS `RuntimeError`. -/
def noCrsMsg : String := "Raster has no CRS – cannot locate coordinates."

/-- `_get_dataset(path)`: normalize the path, return the cached handle on a
hit; on a miss open the raster (counted), raise if it has no CRS, wrap it in
a `WarpedVRT` targeting EPSG:4326 if its CRS is not already 4326, store the
handle under the normalized key and return it.  Result: the returned handle
(or raised error), the updated cache, and the number of `rasterio.open`
calls performed. -/
def getDataset (env : Env) (cache : Cache) (path : String) :
    Except PyError Raster × Cache × ℕ :=
  match cache (env.norm path) with
  | some ds => (.ok ds, cache, 0)
  | none =>
    match env.fsOpen (env.norm path) with
    | .error err => (.error err, cache, 1)
    | .ok base =>
      if base.crs = none then
        (.error (.runtimeError noCrsMsg), cache, 1)
      else if base.crs ≠ some (some 4326) then
        (.ok (env.warp base), cacheSet cache (env.norm path) (env.warp base), 1)
      else
        (.ok base, cacheSet cache (env.norm path) base, 1)

/-- The message of the `RuntimeError` raised by `_geocode` when geopy is
absent. -/
def geopyMissingMsg : String :=
  "geopy is required for address lookup. Install via `pip install geopy`."

/-- The message of the `ValueError` raised by `_geocode` when the address
resolves to no location (the Python source formats the address with `!r`;
the quoting is immaterial here). -/
def addressNotFoundMsg (address : String) : String :=
  "Address not found: " ++ address

/-- `_geocode(address)`: raise `RuntimeError` if no geopy backend is
configured; otherwise query the (lazily created, process-shared) geocoder
and raise `ValueError` if it returns no location, else return
`(loc.latitude, loc.longitude)`.  The `lru_cache` memoisation does not
change the value, so the embedding is a pure function of the backend. -/
def geocode (backend : Option (String → Option (ℚ × ℚ))) (address : String) :
    Except PyError (ℚ × ℚ) :=
  match backend with
  | none => .error (.runtimeError geopyMissingMsg)
  | some g =>
    match g address with
    | none => .error (.valueError (addressNotFoundMsg address))
    | some loc => .ok loc

/-- The input of `get_soil_temperature`: a free-form address string or a
`(lat, lon)` pair. -/
inductive AddrOrCoord : Type where
  | addr (s : String) : AddrOrCoord
  | coord (lat lon : ℚ) : AddrOrCoord

/-- Lines 127–130 of the source: geocode a string input, pass a coordinate
pair through. -/
def resolveCoord (env : Env) (input : AddrOrCoord) : Except PyError (ℚ × ℚ) :=
  match input with
  | .addr s => geocode env.backend s
  | .coord lat lon => .ok (lat, lon)

/-- Lines 134–146 of the source: sample one pixel at `(lon, lat)` (note the
axis swap), then apply the nodata policy: `None` if the raster declares a
nodata sentinel and the value is `np.isclose` to it, `None` if the value is
NaN, otherwise `float(value)`. -/
def sampleResult (ds : Raster) (lat lon : ℚ) : Option ℚ :=
  if (match ds.nodata with
      | some nd => npIsClose (ds.sample lon lat) nd
      | none => false) then
    none
  else if (ds.sample lon lat).isNaN then
    none
  else
    some (ds.sample lon lat).toRat

/-- `get_soil_temperature(address_or_coord, tif_path)`: resolve the input to
coordinates (geocoding a string), acquire the dataset through the cache, and
sample one pixel with the nodata policy.  Result: the returned
`float | None` (or raised error), the updated cache, and the number of
`rasterio.open` calls performed. -/
def getSoilTemperature (env : Env) (cache : Cache) (input : AddrOrCoord)
    (path : String) : Except PyError (Option ℚ) × Cache × ℕ :=
  match resolveCoord env input with
  | .error err => (.error err, cache, 0)
  | .ok latlon =>
    let r := getDataset env cache path
    match r.1 with
    | .error err => (.error err, r.2.1, r.2.2)
    | .ok ds => (.ok (sampleResult ds latlon.1 latlon.2), r.2.1, r.2.2)

/-- The bounding box `(lat_min, lon_min, lat_max, lon_max)`, i.e.
`(south, west, north, east)`. -/
structure Bbox : Type where
  south : ℚ
  west : ℚ
  north : ℚ
  east : ℚ
deriving DecidableEq

/-- Lines 186–188 of the source: the quick rejection test — the box misses
the raster entirely when its east edge is west of the raster's left edge, or
its west edge east of the raster's right edge, or its north edge south of
the raster's bottom edge, or its south edge north of the raster's top
edge. -/
def fastReject (ds : Raster) (b : Bbox) : Bool :=
  decide (b.east < ds.left) || decide (b.west > ds.right) ||
  decide (b.north < ds.bottom) || decide (b.south > ds.top)

/-- `rasterio.windows.from_bounds(west, south, east, north, transform)` for an
axis-aligned transform: map the corner coordinates to fractional row/col via
the inverse transform, then take mins as offsets and extents as lengths. -/
def fromBoundsWin (ds : Raster) (b : Bbox) : Win :=
  let colL := (b.west - ds.c) / ds.a
  let colR := (b.east - ds.c) / ds.a
  let rowT := (b.north - ds.f) / ds.e
  let rowB := (b.south - ds.f) / ds.e
  let colStart := min colL colR
  let colStop := max colL colR
  let rowStart := min rowT rowB
  let rowStop := max rowT rowB
  ⟨colStart, rowStart, colStop - colStart, rowStop - rowStart⟩

/-- `.round_offsets().round_lengths()`: floor the offsets, ceil the
lengths (the rasterio defaults). -/
def roundWin (w : Win) : Win :=
  ⟨(⌊w.colOff⌋ : ℚ), (⌊w.rowOff⌋ : ℚ), (⌈w.width⌉ : ℚ), (⌈w.height⌉ : ℚ)⟩

/-- Line 199 of the source: the full raster extent window
`Window(0, 0, ds.width, ds.height)`. -/
def fullWindow (ds : Raster) : Win :=
  ⟨0, 0, (ds.rasterWidth : ℚ), (ds.rasterHeight : ℚ)⟩

/-- `rasterio.windows.intersect`: two windows overlap iff their column ranges
and their row ranges both overlap with strict inequalities. -/
def winOverlaps (u v : Win) : Bool :=
  decide (u.colOff < v.colOff + v.width) && decide (v.colOff < u.colOff + u.width) &&
  decide (u.rowOff < v.rowOff + v.height) && decide (v.rowOff < u.rowOff + u.height)

/-- `Window.intersection`: raises `WindowError` (modelled as `none`) when the
windows do not overlap; otherwise the innermost extent — offsets are the
maxima of the offsets, stops the minima of the stops. -/
def winIntersection (u v : Win) : Option Win :=
  if winOverlaps u v then
    let co := max u.colOff v.colOff
    let ro := max u.rowOff v.rowOff
    some ⟨co, ro,
      min (u.colOff + u.width) (v.colOff + v.width) - co,
      min (u.rowOff + u.height) (v.rowOff + v.height) - ro⟩
  else none

/-- The value returned by `get_soil_temperatures_in_bbox`:
`None`, a masked array, or a plain float array. -/
inductive BboxResult : Type where
  | noneRes : BboxResult
  | maskedRes (m : MArr) : BboxResult
  | plainRes (p : List (List PixelVal)) : BboxResult
deriving DecidableEq

/-- Lines 185–216 of the source, after the dataset has been acquired:
quick-reject, window construction, rounding, clipping to the raster extent
(`WindowError` when the windows do not overlap), the empty-window and
all-masked checks, and the masked / NaN-filled return.  The second component
counts the windowed reads performed. -/
def bboxCore (ds : Raster) (b : Bbox) (masked : Bool) :
    Except PyError BboxResult × ℕ :=
  if fastReject ds b then (.ok .noneRes, 0)
  else
    let window := roundWin (fromBoundsWin ds b)
    match winIntersection window (fullWindow ds) with
    | none => (.error (.windowError "windows do not intersect"), 0)
    | some w =>
      if w.width ≤ 0 ∨ w.height ≤ 0 then (.ok .noneRes, 0)
      else
        let data := ds.readWin w
        if maskAll data then (.ok .noneRes, 1)
        else if masked then (.ok (.maskedRes data), 1)
        else (.ok (.plainRes (fillNaN data)), 1)

/-- `get_soil_temperatures_in_bbox(bbox, tif_path, masked)`: acquire the
dataset through the cache (before any bbox test), then run the windowed
query.  Result: the returned value (or raised error), the updated cache, the
number of `rasterio.open` calls, and the number of windowed reads. -/
def getSoilTemperaturesInBbox (env : Env) (cache : Cache) (b : Bbox)
    (path : String) (masked : Bool) :
    Except PyError BboxResult × Cache × ℕ × ℕ :=
  let r := getDataset env cache path
  match r.1 with
  | .error err => (.error err, r.2.1, r.2.2, 0)
  | .ok ds =>
    let core := bboxCore ds b masked
    (core.1, r.2.1, r.2.2, core.2)

/-- Every handle stored in the cache is in geographic coordinates
(EPSG:4326). -/
def cacheGeo (cache : Cache) : Prop :=
  ∀ k h, cache k = some h → h.crs = some (some 4326)

/-- A concrete raster for concrete evaluations: the example of the spec's
test scenario — bounds 0°–10° in both axes, 1° per pixel, north-up
transform, nodata −9999, every sampled pixel 15.5 °C.  Its windowed read
returns one valid cell (15.5) and one masked cell. -/
def sampleRaster : Raster where
  crs := some (some 4326)
  nodata := some (PixelVal.val (-9999))
  left := 0
  bottom := 0
  right := 10
  top := 10
  rasterWidth := 10
  rasterHeight := 10
  a := 1
  c := 0
  e := -1
  f := 10
  sample := fun _ _ => PixelVal.val (31 / 2)
  readWin := fun _ => ⟨[[(PixelVal.val (31 / 2), false), (PixelVal.val 2, true)]]⟩

/-- A concrete raster whose CRS is Web Mercator (EPSG:3857), so that
`_get_dataset` wraps it. -/
def mercRaster : Raster where
  crs := some (some 3857)
  nodata := none
  left := 0
  bottom := 0
  right := 10
  top := 10
  rasterWidth := 10
  rasterHeight := 10
  a := 1
  c := 0
  e := -1
  f := 10
  sample := fun _ _ => PixelVal.val 3
  readWin := fun _ => ⟨[[(PixelVal.val 3, false)]]⟩

/-- A concrete raster with no CRS at all. -/
def noCrsRaster : Raster where
  crs := none
  nodata := none
  left := 0
  bottom := 0
  right := 10
  top := 10
  rasterWidth := 10
  rasterHeight := 10
  a := 1
  c := 0
  e := -1
  f := 10
  sample := fun _ _ => PixelVal.val 3
  readWin := fun _ => ⟨[[(PixelVal.val 3, false)]]⟩

/-- A concrete environment: `"./r.tif"` and `"r.tif"` are two spellings of
the same file, three files exist (`r.tif`, `nocrs.tif`, `merc.tif`), every
other path fails to open, the reprojection wrapper sets the CRS to
EPSG:4326, and no geocoding backend is installed. -/
def sampleEnv : Env where
  norm := fun s => if s = "./r.tif" then "r.tif" else s
  fsOpen := fun s =>
    if s = "r.tif" then .ok sampleRaster
    else if s = "nocrs.tif" then .ok noCrsRaster
    else if s = "merc.tif" then .ok mercRaster
    else .error (.ioError "No such file or directory")
  warp := fun r => { r with crs := some (some 4326) }
  backend := none

/-! ## Helper lemmas about the dataset cache -/

/-- On a cache hit, `_get_dataset` returns the stored handle unchanged, with
no open. -/
theorem getDataset_hit (env : Env) (cache : Cache) (path : String) (ds : Raster)
    (h : cache (env.norm path) = some ds) :
    getDataset env cache path = (.ok ds, cache, 0) := by
  unfold getDataset
  rw [h]

/-- A successful `_get_dataset` call leaves the returned handle stored under
the normalized key. -/
theorem getDataset_ok_cached (env : Env) (cache : Cache) (path : String) (ds : Raster)
    (h : (getDataset env cache path).1 = .ok ds) :
    (getDataset env cache path).2.1 (env.norm path) = some ds := by
  cases hc : cache (env.norm path) with
  | some d =>
    simp [getDataset, hc] at h ⊢
    exact h
  | none =>
    cases ho : env.fsOpen (env.norm path) with
    | error err => simp [getDataset, hc, ho] at h
    | ok base =>
      by_cases h0 : base.crs = none
      · simp [getDataset, hc, ho, h0] at h
      · by_cases h4 : base.crs = some (some 4326)
        · simp [getDataset, hc, ho, h0, h4, cacheSet] at h ⊢
          exact h
        · simp [getDataset, hc, ho, h0, h4, cacheSet] at h ⊢
          exact h

/-- `_get_dataset` performs at most one raster open per call. -/
theorem getDataset_opens_le_one (env : Env) (cache : Cache) (path : String) :
    (getDataset env cache path).2.2 ≤ 1 := by
  unfold getDataset
  split
  · simp
  · split
    · simp
    · split
      · simp
      · split <;> simp

/-! ## Claims about the dataset cache -/

/-- Claim C2: calling `_get_dataset` twice with equivalent path spellings
(spellings with the same normalized, user-expanded absolute form) returns
the identical handle instance and performs at most one raster open between
the two calls, because the normalized form is the cache key. -/
theorem getDataset_equiv_paths (env : Env) (cache : Cache) (p1 p2 : String)
    (hnorm : env.norm p1 = env.norm p2) (ds : Raster)
    (h1 : (getDataset env cache p1).1 = .ok ds) :
    (getDataset env (getDataset env cache p1).2.1 p2).1 = .ok ds ∧
    (getDataset env cache p1).2.2 +
      (getDataset env (getDataset env cache p1).2.1 p2).2.2 ≤ 1 := by
  have hcached := getDataset_ok_cached env cache p1 ds h1
  rw [hnorm] at hcached
  have h2 := getDataset_hit env (getDataset env cache p1).2.1 p2 ds hcached
  refine ⟨by rw [h2], ?_⟩
  rw [h2]
  simpa using getDataset_opens_le_one env cache p1

/-- Witness for C2: `"./r.tif"` and `"r.tif"` normalize alike in the sample
environment; acquiring one then the other yields the same handle with at
most one open in total. -/
theorem getDataset_equiv_paths_app :
    (getDataset sampleEnv (getDataset sampleEnv emptyCache "./r.tif").2.1 "r.tif").1 =
      .ok sampleRaster ∧
    (getDataset sampleEnv emptyCache "./r.tif").2.2 +
      (getDataset sampleEnv (getDataset sampleEnv emptyCache "./r.tif").2.1 "r.tif").2.2 ≤ 1 :=
  getDataset_equiv_paths sampleEnv emptyCache "./r.tif" "r.tif" rfl sampleRaster rfl

/-- Claim C6: the cache invariant — provided the reprojection wrapper
produces EPSG:4326 handles (its library contract), `_get_dataset` preserves
"every stored handle is geographic (EPSG:4326)"; the returned handle is
geographic and is exactly the one stored under the normalized path (one
live handle per normalized key); and a raster whose CRS is not EPSG:4326 is
stored only in its wrapped form, never directly. -/
theorem getDataset_crs_invariant (env : Env) (cache : Cache) (path : String)
    (hwarp : ∀ r, (env.warp r).crs = some (some 4326))
    (hc : cacheGeo cache) :
    cacheGeo (getDataset env cache path).2.1 ∧
    (∀ ds, (getDataset env cache path).1 = .ok ds →
      ds.crs = some (some 4326) ∧
      (getDataset env cache path).2.1 (env.norm path) = some ds) ∧
    (∀ base epsg, cache (env.norm path) = none →
      env.fsOpen (env.norm path) = .ok base →
      base.crs = some epsg → epsg ≠ some 4326 →
      (getDataset env cache path).2.1 (env.norm path) = some (env.warp base)) := by
  refine ⟨?_, ?_, ?_⟩
  · intro k hh hk
    cases hcc : cache (env.norm path) with
    | some d =>
      simp [getDataset, hcc] at hk
      exact hc k hh hk
    | none =>
      cases ho : env.fsOpen (env.norm path) with
      | error err =>
        simp [getDataset, hcc, ho] at hk
        exact hc k hh hk
      | ok base =>
        by_cases h0 : base.crs = none
        · simp [getDataset, hcc, ho, h0] at hk
          exact hc k hh hk
        · by_cases h4 : base.crs = some (some 4326)
          · simp [getDataset, hcc, ho, h0, h4, cacheSet] at hk
            by_cases hk2 : k = env.norm path
            · simp [hk2] at hk
              exact hk ▸ h4
            · simp [hk2] at hk
              exact hc k hh hk
          · simp [getDataset, hcc, ho, h0, h4, cacheSet] at hk
            by_cases hk2 : k = env.norm path
            · simp [hk2] at hk
              exact hk ▸ hwarp base
            · simp [hk2] at hk
              exact hc k hh hk
  · intro ds hds
    refine ⟨?_, getDataset_ok_cached env cache path ds hds⟩
    cases hcc : cache (env.norm path) with
    | some d =>
      simp [getDataset, hcc] at hds
      exact hds ▸ hc (env.norm path) d hcc
    | none =>
      cases ho : env.fsOpen (env.norm path) with
      | error err => simp [getDataset, hcc, ho] at hds
      | ok base =>
        by_cases h0 : base.crs = none
        · simp [getDataset, hcc, ho, h0] at hds
        · by_cases h4 : base.crs = some (some 4326)
          · simp [getDataset, hcc, ho, h0, h4] at hds
            exact hds ▸ h4
          · simp [getDataset, hcc, ho, h0, h4] at hds
            exact hds ▸ hwarp base
  · intro base epsg hmiss hopen hcrs hne
    simp [getDataset, hmiss, hopen, hcrs, hne, cacheSet]

/-- Witness for C6: a Web Mercator raster is stored in its wrapped form
under the normalized key. -/
theorem getDataset_crs_invariant_app :
    (getDataset sampleEnv emptyCache "merc.tif").2.1 (sampleEnv.norm "merc.tif") =
      some (sampleEnv.warp mercRaster) :=
  (getDataset_crs_invariant sampleEnv emptyCache "merc.tif"
      (fun _ => rfl) (fun _ _ hk => Option.noConfusion hk)).2.2
    mercRaster (some 3857) rfl rfl rfl (by decide)

/-- Claim C7: on a cache miss, a raster that opens but has no coordinate
reference system makes `_get_dataset` fail with the configuration
`RuntimeError` ("Raster has no CRS – cannot locate coordinates.") and leaves
the cache exactly as it was: nothing is stored for a CRS-less raster. -/
theorem getDataset_missing_crs (env : Env) (cache : Cache) (path : String)
    (base : Raster)
    (hmiss : cache (env.norm path) = none)
    (hopen : env.fsOpen (env.norm path) = .ok base)
    (hcrs : base.crs = none) :
    (getDataset env cache path).1 = .error (.runtimeError noCrsMsg) ∧
    (getDataset env cache path).2.1 = cache := by
  simp [getDataset, hmiss, hopen, hcrs]

/-- Witness for C7: opening the CRS-less sample raster fails and stores
nothing. -/
theorem getDataset_missing_crs_app :
    (getDataset sampleEnv emptyCache "nocrs.tif").1 =
      .error (.runtimeError noCrsMsg) ∧
    (getDataset sampleEnv emptyCache "nocrs.tif").2.1 = emptyCache :=
  getDataset_missing_crs sampleEnv emptyCache "nocrs.tif" noCrsRaster rfl rfl rfl

/-! ## Claims about geocoding and the point lookup -/

/-- Claim C8: `_geocode` fails with a `RuntimeError` ("backend unavailable")
when no geopy backend is configured, and with a `ValueError` ("not found")
when the backend runs but resolves the address to no location; the two
errors are distinct exception classes, and neither case returns a value
(absence is never the report). -/
theorem geocode_error_cases (g : String → Option (ℚ × ℚ)) (address : String)
    (hmiss : g address = none) :
    geocode none address = .error (.runtimeError geopyMissingMsg) ∧
    geocode (some g) address = .error (.valueError (addressNotFoundMsg address)) ∧
    PyError.runtimeError geopyMissingMsg ≠
      PyError.valueError (addressNotFoundMsg address) ∧
    (∀ loc, geocode none address ≠ .ok loc) ∧
    (∀ loc, geocode (some g) address ≠ .ok loc) := by
  have h2 : geocode (some g) address =
      .error (.valueError (addressNotFoundMsg address)) := by
    simp [geocode, hmiss]
  refine ⟨rfl, h2, by simp, by simp [geocode], ?_⟩
  intro loc
  rw [h2]
  simp

/-- Witness for C8: with geopy absent the lookup raises the backend error;
with a backend that knows no address, "Nowhere" raises the not-found
error. -/
theorem geocode_error_cases_app :
    geocode none "Nowhere" = .error (.runtimeError geopyMissingMsg) ∧
    geocode (some fun _ => none) "Nowhere" =
      .error (.valueError (addressNotFoundMsg "Nowhere")) :=
  ⟨(geocode_error_cases (fun _ => none) "Nowhere" rfl).1,
   (geocode_error_cases (fun _ => none) "Nowhere" rfl).2.1⟩

/-- `get_soil_temperature` on a coordinate pair: no geocoding round-trip,
result determined by the acquired dataset and the nodata policy. -/
theorem getSoilTemperature_coord (env : Env) (cache : Cache) (lat lon : ℚ)
    (path : String) :
    getSoilTemperature env cache (.coord lat lon) path =
      match (getDataset env cache path).1 with
      | .error err =>
        (.error err, (getDataset env cache path).2.1, (getDataset env cache path).2.2)
      | .ok ds =>
        (.ok (sampleResult ds lat lon), (getDataset env cache path).2.1,
          (getDataset env cache path).2.2) := rfl

/-- When dataset acquisition succeeds, the point lookup on coordinates
returns the sampled result and passes the cache state and open count of
`_get_dataset` through. -/
theorem getSoilTemperature_coord_ok (env : Env) (cache : Cache) (lat lon : ℚ)
    (path : String) (ds : Raster)
    (hds : (getDataset env cache path).1 = .ok ds) :
    (getSoilTemperature env cache (.coord lat lon) path).1 =
      .ok (sampleResult ds lat lon) ∧
    (getSoilTemperature env cache (.coord lat lon) path).2.1 =
      (getDataset env cache path).2.1 ∧
    (getSoilTemperature env cache (.coord lat lon) path).2.2 =
      (getDataset env cache path).2.2 := by
  rw [getSoilTemperature_coord, hds]
  exact ⟨rfl, rfl, rfl⟩

/-- Claim C1: the nodata policy of the point lookup — once the dataset is
acquired, if the raster declares a nodata sentinel and the sampled pixel is
`np.isclose` to it, the result is `None`; independently, a NaN sample gives
`None`; otherwise the sampled value itself is returned as a float. -/
theorem getSoilTemperature_nodata_policy (env : Env) (cache : Cache)
    (lat lon : ℚ) (path : String) (ds : Raster)
    (hds : (getDataset env cache path).1 = .ok ds) :
    (∀ nd, ds.nodata = some nd → npIsClose (ds.sample lon lat) nd = true →
      (getSoilTemperature env cache (.coord lat lon) path).1 = .ok none) ∧
    ((ds.sample lon lat).isNaN = true →
      (getSoilTemperature env cache (.coord lat lon) path).1 = .ok none) ∧
    ((∀ nd, ds.nodata = some nd → npIsClose (ds.sample lon lat) nd = false) →
      (ds.sample lon lat).isNaN = false →
      (getSoilTemperature env cache (.coord lat lon) path).1 =
        .ok (some (ds.sample lon lat).toRat)) := by
  obtain ⟨hres, -, -⟩ := getSoilTemperature_coord_ok env cache lat lon path ds hds
  rw [hres]
  refine ⟨?_, ?_, ?_⟩
  · intro nd hnd hclose
    simp [sampleResult, hnd, hclose]
  · intro hnan
    unfold sampleResult
    split
    · rfl
    · simp [hnan]
  · intro hfar hnan
    cases hnd : ds.nodata with
    | none => simp [sampleResult, hnd, hnan]
    | some nd => simp [sampleResult, hnd, hfar nd hnd, hnan]

/-- Witness for C1: on the sample raster (nodata −9999, every pixel 15.5)
the point lookup at (5.5, 5.5) returns 15.5. -/
theorem getSoilTemperature_nodata_policy_app :
    (getSoilTemperature sampleEnv emptyCache (.coord (11 / 2) (11 / 2)) "r.tif").1 =
      .ok (some ((sampleRaster.sample (11 / 2) (11 / 2)).toRat)) := by
  have h := getSoilTemperature_nodata_policy sampleEnv emptyCache (11 / 2) (11 / 2)
    "r.tif" sampleRaster rfl
  refine h.2.2 ?_ rfl
  intro nd hnd
  have h2 : nd = PixelVal.val (-9999) := by
    have h3 : sampleRaster.nodata = some (PixelVal.val (-9999)) := rfl
    rw [h3] at hnd
    exact (Option.some_inj.mp hnd).symm
  rw [h2]
  have h4 : sampleRaster.sample (11 / 2) (11 / 2) = PixelVal.val (31 / 2) := rfl
  rw [h4]
  simp only [npIsClose, decide_eq_false_iff_not]
  norm_num [abs_le]

/-- Claim C9: idempotence of the point lookup — if a call with a coordinate
pair returns, an immediately repeated call with the same coordinates and
path returns the same value, and the two calls together perform at most one
raster open. -/
theorem getSoilTemperature_idempotent (env : Env) (cache : Cache)
    (lat lon : ℚ) (path : String) (v : Option ℚ)
    (h1 : (getSoilTemperature env cache (.coord lat lon) path).1 = .ok v) :
    (getSoilTemperature env
        (getSoilTemperature env cache (.coord lat lon) path).2.1
        (.coord lat lon) path).1 = .ok v ∧
    (getSoilTemperature env cache (.coord lat lon) path).2.2 +
      (getSoilTemperature env
        (getSoilTemperature env cache (.coord lat lon) path).2.1
        (.coord lat lon) path).2.2 ≤ 1 := by
  cases hds : (getDataset env cache path).1 with
  | error err =>
    rw [getSoilTemperature_coord, hds] at h1
    simp at h1
  | ok ds =>
    have hco := getSoilTemperature_coord_ok env cache lat lon path ds hds
    rw [hco.1] at h1
    have hv : sampleResult ds lat lon = v := by simpa using h1
    have hcached := getDataset_ok_cached env cache path ds hds
    have h2 := getDataset_hit env (getDataset env cache path).2.1 path ds hcached
    have hds2 : (getDataset env (getDataset env cache path).2.1 path).1 = .ok ds := by
      rw [h2]
    have hco2 := getSoilTemperature_coord_ok env (getDataset env cache path).2.1
      lat lon path ds hds2
    constructor
    · rw [hco.2.1, hco2.1, hv]
    · rw [hco.2.2, hco.2.1, hco2.2.2, h2]
      simpa using getDataset_opens_le_one env cache path

/-- Witness for C9: repeating the sample lookup at (5.5, 5.5) returns 15.5
again with no further open. -/
theorem getSoilTemperature_idempotent_app :
    (getSoilTemperature sampleEnv
        (getSoilTemperature sampleEnv emptyCache (.coord (11 / 2) (11 / 2)) "r.tif").2.1
        (.coord (11 / 2) (11 / 2)) "r.tif").1 = .ok (some (31 / 2)) ∧
    (getSoilTemperature sampleEnv emptyCache (.coord (11 / 2) (11 / 2)) "r.tif").2.2 +
      (getSoilTemperature sampleEnv
        (getSoilTemperature sampleEnv emptyCache (.coord (11 / 2) (11 / 2)) "r.tif").2.1
        (.coord (11 / 2) (11 / 2)) "r.tif").2.2 ≤ 1 := by
  have hnc : npIsClose (PixelVal.val (31 / 2)) (PixelVal.val (-9999)) = false := by
    simp only [npIsClose, decide_eq_false_iff_not]
    norm_num [abs_le]
  have hsr : sampleResult sampleRaster (11 / 2) (11 / 2) = some (31 / 2) := by
    simp [sampleResult, sampleRaster, hnc, PixelVal.isNaN, PixelVal.toRat]
  have hds : (getDataset sampleEnv emptyCache "r.tif").1 = .ok sampleRaster := rfl
  have hc := getSoilTemperature_coord_ok sampleEnv emptyCache (11 / 2) (11 / 2)
    "r.tif" sampleRaster hds
  exact getSoilTemperature_idempotent sampleEnv emptyCache (11 / 2) (11 / 2) "r.tif"
    (some (31 / 2)) (by rw [hc.1, hsr])

/-! ## Claims about the bounding-box lookup -/

/-- When dataset acquisition succeeds, the bbox lookup runs the windowed
query on the acquired handle and passes the cache state and open count
through. -/
theorem getBbox_ok (env : Env) (cache : Cache) (b : Bbox) (path : String)
    (masked : Bool) (ds : Raster)
    (hds : (getDataset env cache path).1 = .ok ds) :
    getSoilTemperaturesInBbox env cache b path masked =
      ((bboxCore ds b masked).1, (getDataset env cache path).2.1,
        (getDataset env cache path).2.2, (bboxCore ds b masked).2) := by
  simp only [getSoilTemperaturesInBbox]
  rw [hds]

/-- Claim C3: a bounding box entirely outside the raster bounds — east edge
west of the raster's left edge, or west edge east of its right edge, or
north edge south of its bottom edge, or south edge north of its top edge —
makes the bbox lookup return `None` immediately, with no windowed read
performed. -/
theorem bbox_fast_reject (env : Env) (cache : Cache) (b : Bbox) (path : String)
    (masked : Bool) (ds : Raster)
    (hds : (getDataset env cache path).1 = .ok ds)
    (hrej : b.east < ds.left ∨ b.west > ds.right ∨
      b.north < ds.bottom ∨ b.south > ds.top) :
    (getSoilTemperaturesInBbox env cache b path masked).1 = .ok .noneRes ∧
    (getSoilTemperaturesInBbox env cache b path masked).2.2.2 = 0 := by
  have hfr : fastReject ds b = true := by
    unfold fastReject
    rcases hrej with h | h | h | h <;> simp [h]
  rw [getBbox_ok env cache b path masked ds hds]
  simp [bboxCore, hfr]

/-- Witness for C3: a box entirely west of the sample raster is rejected
with no read. -/
theorem bbox_fast_reject_app :
    (getSoilTemperaturesInBbox sampleEnv emptyCache ⟨1, -20, 2, -15⟩ "r.tif" false).1 =
      .ok .noneRes ∧
    (getSoilTemperaturesInBbox sampleEnv emptyCache ⟨1, -20, 2, -15⟩ "r.tif" false).2.2.2 = 0 :=
  bbox_fast_reject sampleEnv emptyCache ⟨1, -20, 2, -15⟩ "r.tif" false sampleRaster rfl
    (Or.inl (by norm_num : (-15 : ℚ) < (0 : ℚ)))

/-- Claim C10: the bbox lookup acquires the dataset before the fast-reject
test, so for every bounding box — including one entirely outside the
raster — a path that fails to open, or a raster without a CRS, raises the
corresponding error instead of returning `None`. -/
theorem bbox_opens_before_reject (env : Env) (cache : Cache) (b : Bbox)
    (path : String) (masked : Bool)
    (hmiss : cache (env.norm path) = none) :
    (∀ err, env.fsOpen (env.norm path) = .error err →
      (getSoilTemperaturesInBbox env cache b path masked).1 = .error err) ∧
    (∀ base, env.fsOpen (env.norm path) = .ok base → base.crs = none →
      (getSoilTemperaturesInBbox env cache b path masked).1 =
        .error (.runtimeError noCrsMsg)) := by
  constructor
  · intro err hopen
    have hds : (getDataset env cache path).1 = .error err := by
      simp [getDataset, hmiss, hopen]
    simp only [getSoilTemperaturesInBbox]
    rw [hds]
  · intro base hopen hcrs
    have hds : (getDataset env cache path).1 = .error (.runtimeError noCrsMsg) := by
      simp [getDataset, hmiss, hopen, hcrs]
    simp only [getSoilTemperaturesInBbox]
    rw [hds]

/-- Witness for C10: querying a bbox that the raster does not even overlap
still raises the open failure for a missing file. -/
theorem bbox_opens_before_reject_app :
    (getSoilTemperaturesInBbox sampleEnv emptyCache ⟨1, -20, 2, -15⟩
        "missing.tif" false).1 = .error (.ioError "No such file or directory") :=
  (bbox_opens_before_reject sampleEnv emptyCache ⟨1, -20, 2, -15⟩ "missing.tif"
      false rfl).1 (.ioError "No such file or directory") rfl

/-- The window produced by `from_bounds` has nonnegative width and height
(its lengths are extents, max minus min). -/
theorem fromBounds_nonneg (ds : Raster) (b : Bbox) :
    0 ≤ (fromBoundsWin ds b).width ∧ 0 ≤ (fromBoundsWin ds b).height := by
  constructor <;>
    · simp only [fromBoundsWin]
      rw [sub_nonneg]
      exact min_le_max

/-- Rounding keeps the lengths nonnegative (the ceiling of a nonnegative
rational is nonnegative). -/
theorem roundWin_fromBounds_nonneg (ds : Raster) (b : Bbox) :
    0 ≤ (roundWin (fromBoundsWin ds b)).width ∧
    0 ≤ (roundWin (fromBoundsWin ds b)).height := by
  obtain ⟨h1, h2⟩ := fromBounds_nonneg ds b
  constructor
  · show (0 : ℚ) ≤ (⌈(fromBoundsWin ds b).width⌉ : ℚ)
    exact_mod_cast Int.ceil_nonneg h1
  · show (0 : ℚ) ≤ (⌈(fromBoundsWin ds b).height⌉ : ℚ)
    exact_mod_cast Int.ceil_nonneg h2

/-- Characterization of a successful window intersection: the windows
overlap and the result is the innermost extent. -/
theorem winIntersection_some (u v w : Win)
    (hw : winIntersection u v = some w) :
    winOverlaps u v = true ∧
    w = ⟨max u.colOff v.colOff, max u.rowOff v.rowOff,
      min (u.colOff + u.width) (v.colOff + v.width) - max u.colOff v.colOff,
      min (u.rowOff + u.height) (v.rowOff + v.height) - max u.rowOff v.rowOff⟩ := by
  unfold winIntersection at hw
  by_cases hov : winOverlaps u v = true
  · rw [if_pos hov] at hw
    exact ⟨hov, (Option.some_inj.mp hw).symm⟩
  · rw [if_neg hov] at hw
    cases hw

/-- Intersecting a window of nonnegative lengths with the full raster
extent window yields a window inside `[0, width] × [0, height]` with
nonnegative dimensions. -/
theorem winIntersection_full_bounds (ds : Raster) (u w : Win)
    (hnn : 0 ≤ u.width ∧ 0 ≤ u.height)
    (hw : winIntersection u (fullWindow ds) = some w) :
    0 ≤ w.colOff ∧ 0 ≤ w.rowOff ∧ 0 ≤ w.width ∧ 0 ≤ w.height ∧
    w.colOff + w.width ≤ (ds.rasterWidth : ℚ) ∧
    w.rowOff + w.height ≤ (ds.rasterHeight : ℚ) := by
  obtain ⟨hov, hwe⟩ := winIntersection_some u (fullWindow ds) w hw
  simp only [winOverlaps, fullWindow, Bool.and_eq_true, decide_eq_true_eq] at hov
  obtain ⟨⟨⟨h1, h2⟩, h3⟩, h4⟩ := hov
  subst hwe
  dsimp only [fullWindow]
  have hW : (0 : ℚ) ≤ (ds.rasterWidth : ℚ) := by positivity
  have hH : (0 : ℚ) ≤ (ds.rasterHeight : ℚ) := by positivity
  have hcolA : max u.colOff (0 : ℚ) ≤
      min (u.colOff + u.width) (0 + (ds.rasterWidth : ℚ)) := by
    apply max_le
    · exact le_min (by linarith [hnn.1]) (le_of_lt h1)
    · exact le_min (le_of_lt h2) (by linarith)
  have hrowA : max u.rowOff (0 : ℚ) ≤
      min (u.rowOff + u.height) (0 + (ds.rasterHeight : ℚ)) := by
    apply max_le
    · exact le_min (by linarith [hnn.2]) (le_of_lt h3)
    · exact le_min (le_of_lt h4) (by linarith)
  have hcolB := min_le_right (u.colOff + u.width) (0 + (ds.rasterWidth : ℚ))
  have hrowB := min_le_right (u.rowOff + u.height) (0 + (ds.rasterHeight : ℚ))
  exact ⟨le_max_right _ _, le_max_right _ _, by linarith, by linarith,
    by linarith, by linarith⟩

/-- Claim C4: for a box that survives the fast-reject test, the pixel
window is intersected with the full raster extent window, so any window the
intersection returns has nonnegative offsets and dimensions and fits inside
the raster; and when that window has zero (or negative) width or height the
bbox lookup returns `None` instead of failing. -/
theorem bbox_window_clipped (env : Env) (cache : Cache) (b : Bbox)
    (path : String) (masked : Bool) (ds : Raster) (w : Win)
    (hds : (getDataset env cache path).1 = .ok ds)
    (hrej : fastReject ds b = false)
    (hw : winIntersection (roundWin (fromBoundsWin ds b)) (fullWindow ds) =
      some w) :
    (0 ≤ w.colOff ∧ 0 ≤ w.rowOff ∧ 0 ≤ w.width ∧ 0 ≤ w.height ∧
      w.colOff + w.width ≤ (ds.rasterWidth : ℚ) ∧
      w.rowOff + w.height ≤ (ds.rasterHeight : ℚ)) ∧
    (w.width ≤ 0 ∨ w.height ≤ 0 →
      (getSoilTemperaturesInBbox env cache b path masked).1 = .ok .noneRes) := by
  constructor
  · exact winIntersection_full_bounds ds (roundWin (fromBoundsWin ds b)) w
      (roundWin_fromBounds_nonneg ds b) hw
  · intro hz
    rw [getBbox_ok env cache b path masked ds hds]
    simp only [bboxCore, hrej, Bool.false_eq_true, if_false]
    rw [hw]
    simp [hz]

/-- Concrete window pipeline on the sample raster: the box
(south 1, west 2, north 3, east 4) maps to the pixel window at column 2,
row 7, size 2 × 2, already inside the raster. -/
theorem sampleWindowEval :
    winIntersection (roundWin (fromBoundsWin sampleRaster ⟨1, 2, 3, 4⟩))
      (fullWindow sampleRaster) = some ⟨2, 7, 2, 2⟩ := by
  have hfb : fromBoundsWin sampleRaster ⟨1, 2, 3, 4⟩ = ⟨2, 7, 2, 2⟩ := by
    simp only [fromBoundsWin, sampleRaster, Win.mk.injEq]
    norm_num [min_def, max_def]
  have hrw : roundWin ⟨2, 7, 2, 2⟩ = ⟨2, 7, 2, 2⟩ := by
    simp only [roundWin, Win.mk.injEq]
    norm_num
  rw [hfb, hrw]
  simp only [winIntersection, winOverlaps, fullWindow, sampleRaster]
  norm_num [min_def, max_def]

/-- The box (1, 2, 3, 4) is not fast-rejected by the sample raster. -/
theorem sampleNotRejected : fastReject sampleRaster ⟨1, 2, 3, 4⟩ = false := by
  simp only [fastReject, sampleRaster]
  norm_num

/-- Witness for C4: the concrete clipped window of the sample query has
nonnegative offsets and dimensions and fits in the 10 × 10 raster. -/
theorem bbox_window_clipped_app :
    0 ≤ (Win.mk 2 7 2 2).colOff ∧ 0 ≤ (Win.mk 2 7 2 2).rowOff ∧
    0 ≤ (Win.mk 2 7 2 2).width ∧ 0 ≤ (Win.mk 2 7 2 2).height ∧
    (Win.mk 2 7 2 2).colOff + (Win.mk 2 7 2 2).width ≤
      (sampleRaster.rasterWidth : ℚ) ∧
    (Win.mk 2 7 2 2).rowOff + (Win.mk 2 7 2 2).height ≤
      (sampleRaster.rasterHeight : ℚ) :=
  (bbox_window_clipped sampleEnv emptyCache ⟨1, 2, 3, 4⟩ "r.tif" false
    sampleRaster ⟨2, 7, 2, 2⟩ rfl sampleNotRejected sampleWindowEval).1

/-- Claim C5: for a bbox query whose clipped window is non-empty, the
windowed read happens and its masked result drives the return value: all
pixels masked gives `None`; `masked=True` returns the masked array with its
mask preserved; otherwise the masked cells are filled with NaN and a plain
float array is returned. -/
theorem bbox_read_result (env : Env) (cache : Cache) (b : Bbox)
    (path : String) (masked : Bool) (ds : Raster) (w : Win)
    (hds : (getDataset env cache path).1 = .ok ds)
    (hrej : fastReject ds b = false)
    (hw : winIntersection (roundWin (fromBoundsWin ds b)) (fullWindow ds) =
      some w)
    (hpos : 0 < w.width ∧ 0 < w.height) :
    (getSoilTemperaturesInBbox env cache b path masked).1 =
      .ok (if maskAll (ds.readWin w) then .noneRes
        else if masked then .maskedRes (ds.readWin w)
        else .plainRes (fillNaN (ds.readWin w))) ∧
    (getSoilTemperaturesInBbox env cache b path masked).2.2.2 = 1 := by
  have hnz : ¬(w.width ≤ 0 ∨ w.height ≤ 0) := by
    push_neg
    exact ⟨hpos.1, hpos.2⟩
  rw [getBbox_ok env cache b path masked ds hds]
  simp only [bboxCore, hrej, Bool.false_eq_true, if_false]
  rw [hw]
  simp only [hnz, if_false]
  cases hm : maskAll (ds.readWin w) <;> cases masked <;> simp [hm]

/-- Witness for C5: the sample query reads the mixed window (one valid
cell, one masked cell) and, with `masked=False`, returns the NaN-filled
plain array. -/
theorem bbox_read_result_app :
    (getSoilTemperaturesInBbox sampleEnv emptyCache ⟨1, 2, 3, 4⟩ "r.tif" false).1 =
      .ok (if maskAll (sampleRaster.readWin ⟨2, 7, 2, 2⟩) then .noneRes
        else if false then .maskedRes (sampleRaster.readWin ⟨2, 7, 2, 2⟩)
        else .plainRes (fillNaN (sampleRaster.readWin ⟨2, 7, 2, 2⟩))) ∧
    (getSoilTemperaturesInBbox sampleEnv emptyCache ⟨1, 2, 3, 4⟩ "r.tif" false).2.2.2 = 1 :=
  bbox_read_result sampleEnv emptyCache ⟨1, 2, 3, 4⟩ "r.tif" false sampleRaster
    ⟨2, 7, 2, 2⟩ rfl sampleNotRejected sampleWindowEval
    ⟨by norm_num, by norm_num⟩
